import Mathlib

/-!
Verification of the insurance reconciliation engine of the `new-shipping`
backend proxy.  The definitions below are a shallow embedding of
`src/routes/insurance.js` (the live router mounted at `/api/insurance`),
`src/services/bigcommerce.js` (modelled as an abstract external cart store)
and the pricing configuration defaults of `src/config/config.js`.

Monetary values are modelled as rationals.  JavaScript `undefined` is
modelled with `Option`; the `a || b` idiom on numeric fields is modelled
by `jsOrNum` / `jsOrQ`, which treat `0` as falsy exactly as JavaScript
does.  `Number.prototype.toFixed(2)` followed by `parseFloat` is modelled
as exact half-up rounding to two decimal places (`toFixed2`).
-/

namespace NewShipping

/-- Configuration default `INSURANCE_PRODUCT_ID` (config.js). -/
def insuranceProductId : Int := 6817

/-- Configuration default `INSURANCE_PERCENTAGE_OVER_200` (config.js): 1.5. -/
def percentageOver200 : ℚ := 3 / 2

/-- Configuration default `INSURANCE_PERCENTAGE_UNDER_200` (config.js): 2. -/
def percentageUnder200 : ℚ := 2

/-- Function `calculateInsuranceAmount` from insurance.js lines 9-15: pick the rate by
comparing the cart total against 200 with a strict `>`, then take that
percentage of the total. -/
def calculateInsuranceAmount (cartTotal : ℚ) : ℚ :=
  let percentage := if cartTotal > 200 then percentageOver200 else percentageUnder200
  cartTotal * percentage / 100

/-- JavaScript `a || b` on optional numeric values: `undefined` and `0` are
falsy, so they fall through to `b`. -/
def jsOrNum (a b : Option Int) : Option Int :=
  match a with
  | some p => if p = 0 then b else some p
  | none => b

/-- JavaScript `a || d` where `d` is an always-defined numeric default. -/
def jsOrQ (a : Option ℚ) (d : ℚ) : ℚ :=
  match a with
  | some p => if p = 0 then d else p
  | none => d

/-- A raw line item as it may arrive from either external API shape: every
field the source reads is optional, in both snake_case and camelCase
spellings.  `id` is the store-assigned item id used for removal. -/
structure RawItem where
  id : Nat
  product_id : Option Int
  productId : Option Int
  list_price : Option ℚ
  listPrice : Option ℚ
  quantity : Option ℚ
deriving Repr, DecidableEq

/-- The `line_items` object of a raw cart; either collection may be absent. -/
structure RawLineItems where
  physical_items : Option (List RawItem)
  digital_items : Option (List RawItem)
deriving Repr, DecidableEq

/-- The `data` envelope of the storefront response shape. -/
structure RawCartData where
  line_items : Option RawLineItems
deriving Repr, DecidableEq

/-- A raw cart payload.  The source reads `cartData.data?.line_items` and
`cartData.line_items`; a top-level camelCase `lineItems` key can be present
in a request payload but is never read by insurance.js. -/
structure RawCart where
  data : Option RawCartData
  line_items : Option RawLineItems
  lineItems : Option (List RawItem)
deriving Repr, DecidableEq

/-- Expression `cartData.data?.line_items || cartData.line_items` (insurance.js lines
26 and 47). -/
def rawCartLineItems (c : RawCart) : Option RawLineItems :=
  match c.data with
  | some d =>
    match d.line_items with
    | some li => some li
    | none => c.line_items
  | none => c.line_items

/-- Expression `item.product_id || item.productId` (insurance.js lines 31 and 51). -/
def resolvedProductId (it : RawItem) : Option Int :=
  jsOrNum it.product_id it.productId

/-- Expression `item.list_price || item.listPrice || 0` (insurance.js line 33). -/
def resolvedListPrice (it : RawItem) : ℚ :=
  jsOrQ it.list_price (jsOrQ it.listPrice 0)

/-- Expression `item.quantity || 0` (insurance.js line 33). -/
def resolvedQuantity (it : RawItem) : ℚ :=
  jsOrQ it.quantity 0

/-- Function `getCartPrice` from insurance.js lines 21-38: sum
`list_price * quantity` over the physical items whose resolved product id
differs from the insurance product id. -/
def getCartPrice (cartData : RawCart) : ℚ :=
  let physicalItems :=
    match rawCartLineItems cartData with
    | some li => li.physical_items.getD []
    | none => []
  physicalItems.foldl
    (fun acc it =>
      if resolvedProductId it ≠ some insuranceProductId then
        acc + resolvedListPrice it * resolvedQuantity it
      else acc)
    0

/-- Function `findInsuranceProduct` from insurance.js lines 44-53: first digital item
whose resolved product id equals the insurance product id. -/
def findInsuranceProduct (cartData : RawCart) : Option RawItem :=
  let digitalItems :=
    match rawCartLineItems cartData with
    | some li => li.digital_items.getD []
    | none => []
  digitalItems.find? (fun it => resolvedProductId it = some insuranceProductId)

/-- Model of `parseFloat(x.toFixed(2))`: round to two decimals, ties upward (ECMA
toFixed picks the larger candidate integer on a tie). -/
def toFixed2 (q : ℚ) : ℚ :=
  ((round (q * 100) : ℤ) : ℚ) / 100

/-! ## External cart store model

The bigcommerce.js service is abstracted as a store whose observable state,
for the purposes of the insurance routes, is the list of digital line items
of one cart (getCart results are only ever fed to `findInsuranceProduct`).
Each call the route issues is recorded in a trace, and injected faults make
any of the three calls throw, as an upstream error would. -/

/-- One digital line item as held by the external store. -/
structure StoreItem where
  id : Nat
  productId : Int
  price : ℚ
deriving Repr, DecidableEq

/-- State of the store for one cart: its digital line items plus a counter
supplying fresh store-assigned item ids. -/
structure StoreState where
  items : List StoreItem
  nextId : Nat
deriving Repr, DecidableEq

/-- A call issued to the external store (bigcommerce.js `getCart`,
`removeCartItem`, `addCartItem`). -/
inductive StoreOp where
  | fetchCart : StoreOp
  | removeItem : Nat → StoreOp
  | addItem : Int → Nat → ℚ → StoreOp
deriving Repr, DecidableEq

/-- Fault injection: which of the three external calls throw. -/
structure Faults where
  fetchFails : Bool
  removeFails : Bool
  addFails : Bool
deriving Repr, DecidableEq

/-- The fault-free store. -/
def noFaults : Faults := ⟨false, false, false⟩

/-- Render the cart of the store in the storefront response shape consumed by
`findInsuranceProduct` (data envelope, snake_case keys). -/
def storeItemToRaw (it : StoreItem) : RawItem :=
  { id := it.id, product_id := some it.productId, productId := none,
    list_price := some it.price, listPrice := none, quantity := some 1 }

/-- The raw cart a successful `getCart` returns for store state `st`. -/
def renderCart (st : StoreState) : RawCart :=
  { data := some
      { line_items := some
          { physical_items := some []
            digital_items := some (st.items.map storeItemToRaw) } }
    line_items := none
    lineItems := none }

/-- Effect of a successful `removeCartItem` on the store: drop the item with
the given store-assigned id. -/
def storeRemove (st : StoreState) (itemId : Nat) : StoreState :=
  { st with items := st.items.filter (fun it => it.id ≠ itemId) }

/-- Effect of a successful `addCartItem` on the store: append a line item
with a fresh id at the requested price. -/
def storeAdd (st : StoreState) (pid : Int) (price : ℚ) : StoreState :=
  { items := st.items ++ [⟨st.nextId, pid, price⟩], nextId := st.nextId + 1 }

/-! ## Route handlers -/

/-- Response of the insurance routes, as far as the claims observe it:
HTTP status, the `success` flag, and the `insuranceAmount` and `action`
fields (absent on error responses). -/
structure ApiResponse where
  status : Nat
  success : Nat
  insuranceAmount : Option ℚ
  action : Option String
deriving Repr, DecidableEq

/-- Body of a POST `/api/insurance/add` request.  `protection` is the result
of `parseInt(protection)` (`none` for NaN); `cartTotal` the result of
`parseFloat(cartTotal)` when the field is present and not null; `cartId` is
the string cart id, with a missing id modelled as the empty string (both
are falsy and rejected alike). -/
structure AddRequest where
  cartId : String
  protection : Option Int
  cartTotal : Option ℚ
  cartData : Option RawCart
deriving Repr

/-- The `cartTotal` / `cartData` precedence shared by the `/add` and `/update`
handlers (insurance.js lines 76-83 and 175-182): a present `cartTotal` is
used as is, otherwise the subtotal is derived from `cartData` via
`getCartPrice`, otherwise there is no base amount. -/
def requestBaseAmount (cartTotal : Option ℚ) (cartData : Option RawCart) : Option ℚ :=
  match cartTotal with
  | some t => some t
  | none =>
    match cartData with
    | some cd => some (getCartPrice cd)
    | none => none

/-- A 400 validation response (`success: 0`, no amount, no action). -/
def badRequest : ApiResponse :=
  { status := 400, success := 0, insuranceAmount := none, action := none }

/-- A 500 upstream-error response (`success: 0`, no amount, no action). -/
def serverError : ApiResponse :=
  { status := 500, success := 0, insuranceAmount := none, action := none }

/-- POST `/api/insurance/add` (insurance.js lines 59-157).  Returns the
response, the trace of store calls issued, and the resulting store state.

Enable path (protection 1): a try block fetches the cart and removes the
first item `findInsuranceProduct` locates; any failure inside that block is
swallowed.  The add then always runs; its failure produces the 500 handler
response.  Disable path (protection 0): the same fetch-and-remove try
block, with failures swallowed, then a success response. -/
def insuranceAddHandler (req : AddRequest) (f : Faults) (st : StoreState) :
    ApiResponse × List StoreOp × StoreState :=
  if req.cartId = "" then (badRequest, [], st)
  else
    match req.protection with
    | none => (badRequest, [], st)
    | some protectionValue =>
      if protectionValue ≠ 0 ∧ protectionValue ≠ 1 then (badRequest, [], st)
      else
        match requestBaseAmount req.cartTotal req.cartData with
        | none => (badRequest, [], st)
        | some baseAmount =>
          let insuranceAmount :=
            if protectionValue = 1 then calculateInsuranceAmount baseAmount else 0
          let formattedPrice := toFixed2 insuranceAmount
          if protectionValue = 1 then
            -- try { getCart; if existing then remove } catch { log only }
            let afterTry : List StoreOp × StoreState :=
              if f.fetchFails then ([StoreOp.fetchCart], st)
              else
                match findInsuranceProduct (renderCart st) with
                | some existingInsurance =>
                  ([StoreOp.fetchCart, StoreOp.removeItem existingInsurance.id],
                   if f.removeFails then st else storeRemove st existingInsurance.id)
                | none => ([StoreOp.fetchCart], st)
            let ops := afterTry.1 ++ [StoreOp.addItem insuranceProductId 1 formattedPrice]
            if f.addFails then (serverError, ops, afterTry.2)
            else
              ({ status := 200, success := 1, insuranceAmount := some formattedPrice,
                 action := some "add" },
               ops, storeAdd afterTry.2 insuranceProductId formattedPrice)
          else
            -- try { getCart; if existing then remove } catch { log only }
            let afterTry : List StoreOp × StoreState :=
              if f.fetchFails then ([StoreOp.fetchCart], st)
              else
                match findInsuranceProduct (renderCart st) with
                | some existingInsurance =>
                  ([StoreOp.fetchCart, StoreOp.removeItem existingInsurance.id],
                   if f.removeFails then st else storeRemove st existingInsurance.id)
                | none => ([StoreOp.fetchCart], st)
            ({ status := 200, success := 1, insuranceAmount := some formattedPrice,
               action := some "remove" },
             afterTry.1, afterTry.2)

/-- Body of a POST `/api/insurance/update` request. -/
structure UpdateRequest where
  cartId : String
  cartTotal : Option ℚ
  cartData : Option RawCart
deriving Repr

/-- POST `/api/insurance/update` (insurance.js lines 164-228).  The try
block fetches the cart and, only when an insurance item is present, removes
it and re-adds it at the recomputed price; any failure inside the block —
fetch, remove or add — returns the 500 response. -/
def insuranceUpdateHandler (req : UpdateRequest) (f : Faults) (st : StoreState) :
    ApiResponse × List StoreOp × StoreState :=
  if req.cartId = "" then (badRequest, [], st)
  else
    match requestBaseAmount req.cartTotal req.cartData with
    | none => (badRequest, [], st)
    | some baseAmount =>
      let insuranceAmount := calculateInsuranceAmount baseAmount
      let formattedPrice := toFixed2 insuranceAmount
      if f.fetchFails then (serverError, [StoreOp.fetchCart], st)
      else
        match findInsuranceProduct (renderCart st) with
        | some existingInsurance =>
          if f.removeFails then
            (serverError, [StoreOp.fetchCart, StoreOp.removeItem existingInsurance.id], st)
          else
            let st' := storeRemove st existingInsurance.id
            let ops := [StoreOp.fetchCart, StoreOp.removeItem existingInsurance.id,
                        StoreOp.addItem insuranceProductId 1 formattedPrice]
            if f.addFails then (serverError, ops, st')
            else
              ({ status := 200, success := 1, insuranceAmount := some formattedPrice,
                 action := some "update" },
               ops, storeAdd st' insuranceProductId formattedPrice)
        | none =>
          ({ status := 200, success := 1, insuranceAmount := some formattedPrice,
             action := some "update" },
           [StoreOp.fetchCart], st)

/-- Response of GET `/api/insurance/calculate`. -/
structure CalcResponse where
  status : Nat
  insuranceAmount : Option ℚ
  percentage : Option ℚ
deriving Repr, DecidableEq

/-- GET `/api/insurance/calculate` (insurance.js lines 234-256).  The query
parameter is `parseFloat(req.query.cartTotal)`, `none` standing for NaN;
NaN or negative totals are rejected with a 400. -/
def insuranceCalculateHandler (cartTotal : Option ℚ) : CalcResponse :=
  match cartTotal with
  | none => { status := 400, insuranceAmount := none, percentage := none }
  | some t =>
    if t < 0 then { status := 400, insuranceAmount := none, percentage := none }
    else
      { status := 200
        insuranceAmount := some (toFixed2 (calculateInsuranceAmount t))
        percentage := some (if t > 200 then percentageOver200 else percentageUnder200) }

/-- The insurance line items of a store state. -/
def insuranceItems (st : StoreState) : List StoreItem :=
  st.items.filter (fun it => it.productId = insuranceProductId)

/-- Number of add calls in a trace. -/
def countAdds (ops : List StoreOp) : Nat :=
  ops.countP (fun op => match op with | StoreOp.addItem _ _ _ => true | _ => false)

/-! ## Helper lemmas -/

/-- Locating the insurance product in a rendered store cart is exactly a
search on the raw product ids of the store items. -/
theorem findInsuranceProduct_renderCart (st : StoreState) :
    findInsuranceProduct (renderCart st) =
      (st.items.find? (fun it => it.productId = insuranceProductId)).map storeItemToRaw := by
  unfold findInsuranceProduct renderCart rawCartLineItems
  simp only [Option.getD_some]
  rw [List.find?_map]
  have hfun : ((fun it => decide (resolvedProductId it = some insuranceProductId)) ∘ storeItemToRaw) =
      (fun it : StoreItem => decide (it.productId = insuranceProductId)) := by
    funext it
    by_cases h : it.productId = 0 <;>
      simp [Function.comp, storeItemToRaw, resolvedProductId, jsOrNum, insuranceProductId, h]
  rw [hfun]

/-- A list of length at most one that contains an element is that singleton. -/
theorem eq_singleton_of_length_le_one {α : Type} {l : List α} {x : α}
    (h : l.length ≤ 1) (hx : x ∈ l) : l = [x] := by
  match l with
  | [] => cases hx
  | [a] =>
    have : x = a := by simpa using hx
    rw [this]
  | a :: b :: rest => simp at h

/-- Rounding zero to two decimals gives exactly zero. -/
theorem toFixed2_zero : toFixed2 0 = 0 := by norm_num [toFixed2]

/-- Adding the insurance product appends one insurance line item. -/
theorem insuranceItems_storeAdd (st : StoreState) (p : ℚ) :
    insuranceItems (storeAdd st insuranceProductId p) =
      insuranceItems st ++ [⟨st.nextId, insuranceProductId, p⟩] := by
  simp [insuranceItems, storeAdd, List.filter_append]

/-! ## Claims -/

/-- C1: for every non-negative subtotal, `calculateInsuranceAmount` applies
the tiered rule — above the threshold 200 the rate is `percentageOver200`
(1.5), at or below it the rate is `percentageUnder200` (2) — and a subtotal
exactly equal to the threshold uses the lower-tier 2% rate, giving 4 at
subtotal 200. -/
theorem calculateInsuranceAmount_tiered (s : ℚ) (_h : 0 ≤ s) :
    calculateInsuranceAmount s =
      (if s > 200 then s * percentageOver200 / 100 else s * percentageUnder200 / 100) ∧
    calculateInsuranceAmount 200 = 200 * percentageUnder200 / 100 ∧
    calculateInsuranceAmount 200 = 4 := by
  refine ⟨?_, ?_, ?_⟩
  · by_cases hs : s > 200 <;> simp [calculateInsuranceAmount, hs]
  · norm_num [calculateInsuranceAmount]
  · norm_num [calculateInsuranceAmount, percentageUnder200]

/-- C1 witness: instantiation at subtotal 150. -/
theorem calculateInsuranceAmount_tiered_witness :
    (0 : ℚ) ≤ 150 ∧
    (calculateInsuranceAmount 150 =
      (if (150 : ℚ) > 200 then 150 * percentageOver200 / 100 else 150 * percentageUnder200 / 100) ∧
    calculateInsuranceAmount 200 = 200 * percentageUnder200 / 100 ∧
    calculateInsuranceAmount 200 = 4) :=
  ⟨by norm_num, calculateInsuranceAmount_tiered 150 (by norm_num)⟩

/-- C4 counterexample: a cart in the storefront shape (snake_case keys under
a `data` envelope) holding the insurance product normalizes to a snapshot
containing the insurance item, while the same cart in the camelCase shape
(top-level `lineItems` with `productId`/`listPrice`) normalizes to a
snapshot with no insurance item and subtotal 0 — the two shapes do not
normalize identically, because the source never reads the `lineItems`
key. -/
theorem normalize_not_shape_agnostic :
    findInsuranceProduct ⟨some ⟨some ⟨some [], some [⟨1, some 6817, none, some 3, none, some 1⟩]⟩⟩, none, none⟩ =
      some ⟨1, some 6817, none, some 3, none, some 1⟩ ∧
    findInsuranceProduct ⟨none, none, some [⟨1, none, some 6817, none, some 3, some 1⟩]⟩ = none := by
  constructor
  · simp +decide [findInsuranceProduct, rawCartLineItems, resolvedProductId, jsOrNum,
      insuranceProductId]
  · simp [findInsuranceProduct, rawCartLineItems]

/-- C4 amended: normalization is agnostic to the `data` envelope (a cart
wrapped as `data.line_items` and the same `line_items` given at top level
normalize identically) and to per-item key casing (`product_id`/`productId`
and `list_price`/`listPrice` resolve identically when the snake_case value
is absent and, for nonzero values, when the casing is swapped), but not to
the casing of the collection keys: a cart given only under a top-level
camelCase `lineItems` key normalizes to the empty snapshot — subtotal 0 and
no insurance item. -/
theorem normalize_envelope_and_item_casing :
    (∀ (li : RawLineItems) (extra : Option (List RawItem)),
      getCartPrice ⟨some ⟨some li⟩, none, extra⟩ = getCartPrice ⟨none, some li, extra⟩ ∧
      findInsuranceProduct ⟨some ⟨some li⟩, none, extra⟩ =
        findInsuranceProduct ⟨none, some li, extra⟩) ∧
    (∀ (n m : Nat) (pid : Int) (price q : ℚ), pid ≠ 0 → price ≠ 0 →
      (resolvedProductId ⟨n, some pid, none, some price, none, some q⟩ =
        resolvedProductId ⟨m, none, some pid, none, some price, some q⟩ ∧
      resolvedListPrice ⟨n, some pid, none, some price, none, some q⟩ =
        resolvedListPrice ⟨m, none, some pid, none, some price, some q⟩ ∧
      resolvedQuantity ⟨n, some pid, none, some price, none, some q⟩ =
        resolvedQuantity ⟨m, none, some pid, none, some price, some q⟩)) ∧
    (∀ l : List RawItem,
      getCartPrice ⟨none, none, some l⟩ = 0 ∧
      findInsuranceProduct ⟨none, none, some l⟩ = none) := by
  refine ⟨fun li extra => ⟨rfl, rfl⟩, fun n m pid price q hpid hprice => ?_, fun l => ⟨rfl, rfl⟩⟩
  refine ⟨?_, ?_, rfl⟩
  · simp [resolvedProductId, jsOrNum, hpid]
  · simp [resolvedListPrice, jsOrQ, hprice]

/-- C4 amended witness: instantiation at a singleton digital collection and
a concrete nonzero product id and price. -/
theorem normalize_envelope_and_item_casing_witness :
    (6817 : Int) ≠ 0 ∧ (3 : ℚ) ≠ 0 ∧
    (resolvedProductId ⟨1, some 6817, none, some 3, none, some 1⟩ =
      resolvedProductId ⟨2, none, some 6817, none, some 3, some 1⟩ ∧
    resolvedListPrice ⟨1, some 6817, none, some 3, none, some 1⟩ =
      resolvedListPrice ⟨2, none, some 6817, none, some 3, some 1⟩ ∧
    resolvedQuantity ⟨1, some 6817, none, some 3, none, some 1⟩ =
      resolvedQuantity ⟨2, none, some 6817, none, some 3, some 1⟩) :=
  ⟨by norm_num, by norm_num,
   normalize_envelope_and_item_casing.2.1 1 2 6817 3 1 (by norm_num) (by norm_num)⟩

/-- C9: normalization is total on structurally incomplete carts — with the
`data` envelope, the `line_items` object, or the `physical_items` and
`digital_items` collections absent, the derived subtotal is 0 and no
insurance item is found, and an item missing its price or quantity fields
resolves those to 0. -/
theorem normalize_total_on_missing_fields :
    (∀ extra : Option (List RawItem),
      getCartPrice ⟨none, none, extra⟩ = 0 ∧
      findInsuranceProduct ⟨none, none, extra⟩ = none ∧
      getCartPrice ⟨some ⟨none⟩, none, extra⟩ = 0 ∧
      findInsuranceProduct ⟨some ⟨none⟩, none, extra⟩ = none ∧
      getCartPrice ⟨none, some ⟨none, none⟩, extra⟩ = 0 ∧
      findInsuranceProduct ⟨none, some ⟨none, none⟩, extra⟩ = none) ∧
    (∀ it : RawItem, it.list_price = none → it.listPrice = none →
      resolvedListPrice it = 0) ∧
    (∀ it : RawItem, it.quantity = none → resolvedQuantity it = 0) := by
  refine ⟨fun extra => ⟨rfl, rfl, rfl, rfl, rfl, rfl⟩,
    fun it h1 h2 => ?_, fun it h => ?_⟩
  · simp [resolvedListPrice, jsOrQ, h1, h2]
  · simp [resolvedQuantity, jsOrQ, h]

/-- C9 witness: instantiation at an item with no price and no quantity
fields. -/
theorem normalize_total_on_missing_fields_witness :
    getCartPrice ⟨none, none, none⟩ = 0 ∧
    RawItem.list_price ⟨5, some 7, none, none, none, none⟩ = none ∧
    resolvedListPrice ⟨5, some 7, none, none, none, none⟩ = 0 ∧
    resolvedQuantity ⟨5, some 7, none, none, none, none⟩ = 0 :=
  ⟨(normalize_total_on_missing_fields.1 none).1, rfl,
   normalize_total_on_missing_fields.2.1 _ rfl rfl,
   normalize_total_on_missing_fields.2.2 _ rfl⟩

/-- C7 counterexample: the reconcile operation accepts a negative subtotal —
a `/add` request with `cartTotal = -50` and protection enabled is not
rejected as a caller error: the handler reports success with the negative
amount `calculateInsuranceAmount (-50) = -1` and issues an add to the
external store at that price. -/
theorem negative_subtotal_not_rejected :
    (insuranceAddHandler ⟨"c", some 1, some (-50), none⟩ noFaults ⟨[], 1⟩).1.success = 1 ∧
    (insuranceAddHandler ⟨"c", some 1, some (-50), none⟩ noFaults ⟨[], 1⟩).1.status = 200 ∧
    (insuranceAddHandler ⟨"c", some 1, some (-50), none⟩ noFaults ⟨[], 1⟩).1.insuranceAmount =
      some (toFixed2 (calculateInsuranceAmount (-50))) ∧
    (insuranceAddHandler ⟨"c", some 1, some (-50), none⟩ noFaults ⟨[], 1⟩).2.1 =
      [StoreOp.fetchCart, StoreOp.addItem insuranceProductId 1 (toFixed2 (calculateInsuranceAmount (-50)))] ∧
    toFixed2 (calculateInsuranceAmount (-50)) = -1 := by
  refine ⟨?_, ?_, ?_, ?_, ?_⟩ <;>
    first
      | simp +decide [insuranceAddHandler, requestBaseAmount, noFaults, findInsuranceProduct,
          renderCart, rawCartLineItems]
      | norm_num [toFixed2, calculateInsuranceAmount, percentageUnder200, round_eq]

/-- C7 amended: only the preview operation (`/calculate`) validates the
subtotal — a NaN or negative `cartTotal` is rejected there with a 400 and no
amount, and a non-negative one is priced — while the reconcile operation
(`/add`) performs no such validation and reports success on a negative
subtotal. -/
theorem only_preview_validates_subtotal (q : ℚ) (h : q < 0) (st : StoreState) :
    (insuranceCalculateHandler (some q)).status = 400 ∧
    (insuranceCalculateHandler (some q)).insuranceAmount = none ∧
    (insuranceCalculateHandler none).status = 400 ∧
    (insuranceCalculateHandler none).insuranceAmount = none ∧
    (∀ r : ℚ, 0 ≤ r → (insuranceCalculateHandler (some r)).status = 200 ∧
      (insuranceCalculateHandler (some r)).insuranceAmount =
        some (toFixed2 (calculateInsuranceAmount r))) ∧
    (insuranceAddHandler ⟨"c", some 1, some q, none⟩ noFaults st).1.success = 1 := by
  refine ⟨?_, ?_, rfl, rfl, fun r hr => ⟨?_, ?_⟩, ?_⟩
  · simp [insuranceCalculateHandler, h]
  · simp [insuranceCalculateHandler, h]
  · simp [insuranceCalculateHandler, not_lt.mpr hr]
  · simp [insuranceCalculateHandler, not_lt.mpr hr]
  · rcases hfind : findInsuranceProduct (renderCart st) with _ | ex <;>
      simp [insuranceAddHandler, requestBaseAmount, noFaults, hfind]

/-- C7 amended witness: instantiation at subtotal -50 and the empty store. -/
theorem only_preview_validates_subtotal_witness :
    (-50 : ℚ) < 0 ∧
    ((insuranceCalculateHandler (some (-50))).status = 400 ∧
    (insuranceCalculateHandler (some (-50))).insuranceAmount = none ∧
    (insuranceCalculateHandler none).status = 400 ∧
    (insuranceCalculateHandler none).insuranceAmount = none ∧
    (∀ r : ℚ, 0 ≤ r → (insuranceCalculateHandler (some r)).status = 200 ∧
      (insuranceCalculateHandler (some r)).insuranceAmount =
        some (toFixed2 (calculateInsuranceAmount r))) ∧
    (insuranceAddHandler ⟨"c", some 1, some (-50), none⟩ noFaults ⟨[], 1⟩).1.success = 1) :=
  ⟨by norm_num, only_preview_validates_subtotal (-50) (by norm_num) ⟨[], 1⟩⟩

/-- C8: an invalid reconcile request — empty or missing `cartId`, missing
`protection`, or a `protection` value other than 0 and 1 — is rejected with
a 400 before any call to the external store: the trace is empty and the
store state untouched. -/
theorem validation_before_external_calls (req : AddRequest) (f : Faults) (st : StoreState)
    (h : req.cartId = "" ∨ req.protection = none ∨
      ∀ pv, req.protection = some pv → pv ≠ 0 ∧ pv ≠ 1) :
    (insuranceAddHandler req f st).1.status = 400 ∧
    (insuranceAddHandler req f st).1.success = 0 ∧
    (insuranceAddHandler req f st).2.1 = [] ∧
    (insuranceAddHandler req f st).2.2 = st := by
  obtain ⟨cid, prot, ctot, cdata⟩ := req
  rcases h with h | h | h
  · simp only at h
    simp [insuranceAddHandler, h, badRequest]
  · simp only at h
    simp [insuranceAddHandler, h, badRequest]
  · simp only at h
    by_cases hcid : cid = ""
    · simp [insuranceAddHandler, hcid, badRequest]
    · rcases prot with _ | pv
      · simp [insuranceAddHandler, hcid, badRequest]
      · have hpv := h pv rfl
        simp [insuranceAddHandler, hcid, hpv.1, hpv.2, badRequest]

/-- C8 witness: instantiation at a request with protection value 2. -/
theorem validation_before_external_calls_witness :
    ((("c" : String) = "" ∨ (some 2 : Option Int) = none ∨
      ∀ pv, (some 2 : Option Int) = some pv → pv ≠ 0 ∧ pv ≠ 1)) ∧
    ((insuranceAddHandler ⟨"c", some 2, some 100, none⟩ noFaults ⟨[], 1⟩).1.status = 400 ∧
    (insuranceAddHandler ⟨"c", some 2, some 100, none⟩ noFaults ⟨[], 1⟩).1.success = 0 ∧
    (insuranceAddHandler ⟨"c", some 2, some 100, none⟩ noFaults ⟨[], 1⟩).2.1 = [] ∧
    (insuranceAddHandler ⟨"c", some 2, some 100, none⟩ noFaults ⟨[], 1⟩).2.2 = ⟨[], 1⟩) :=
  ⟨Or.inr (Or.inr (by intro pv hpv; cases hpv; exact ⟨by decide, by decide⟩)),
   validation_before_external_calls ⟨"c", some 2, some 100, none⟩ noFaults ⟨[], 1⟩
     (Or.inr (Or.inr (by intro pv hpv; cases hpv; exact ⟨by decide, by decide⟩)))⟩

/-- C10: a caller-supplied `cartTotal` always takes precedence over a
supplied `cartData` payload — the base amount is `cartTotal` itself and the
handlers behave identically with the payload dropped — `cartData` is used
for the subtotal only when `cartTotal` is absent, and with both absent the
`/add` and `/update` requests are rejected with a 400 before any external
call. -/
theorem cartTotal_precedence (cid : String) (hcid : cid ≠ "") (t : ℚ) (cd : RawCart)
    (pv : Int) (f : Faults) (st : StoreState) :
    requestBaseAmount (some t) (some cd) = some t ∧
    requestBaseAmount none (some cd) = some (getCartPrice cd) ∧
    requestBaseAmount none none = none ∧
    insuranceAddHandler ⟨cid, some pv, some t, some cd⟩ f st =
      insuranceAddHandler ⟨cid, some pv, some t, none⟩ f st ∧
    insuranceUpdateHandler ⟨cid, some t, some cd⟩ f st =
      insuranceUpdateHandler ⟨cid, some t, none⟩ f st ∧
    ((insuranceAddHandler ⟨cid, some pv, none, none⟩ f st).1.status = 400 ∧
     (insuranceAddHandler ⟨cid, some pv, none, none⟩ f st).2.1 = [] ∧
     (insuranceAddHandler ⟨cid, some pv, none, none⟩ f st).2.2 = st) ∧
    ((insuranceUpdateHandler ⟨cid, none, none⟩ f st).1.status = 400 ∧
     (insuranceUpdateHandler ⟨cid, none, none⟩ f st).2.1 = [] ∧
     (insuranceUpdateHandler ⟨cid, none, none⟩ f st).2.2 = st) := by
  refine ⟨rfl, rfl, rfl, rfl, rfl, ?_, ?_⟩
  · by_cases hpv : pv = 0 ∨ pv = 1
    · simp [insuranceAddHandler, requestBaseAmount, hcid, badRequest]
    · simp [insuranceAddHandler, requestBaseAmount, hcid, badRequest]
  · simp [insuranceUpdateHandler, requestBaseAmount, hcid, badRequest]

/-- C10 witness: instantiation at a concrete request and store. -/
theorem cartTotal_precedence_witness :
    ("c" : String) ≠ "" ∧
    (requestBaseAmount (some 300) (some ⟨none, none, none⟩) = some 300 ∧
    requestBaseAmount none (some ⟨none, none, none⟩) =
      some (getCartPrice ⟨none, none, none⟩) ∧
    requestBaseAmount none none = none ∧
    insuranceAddHandler ⟨"c", some 1, some 300, some ⟨none, none, none⟩⟩ noFaults ⟨[], 1⟩ =
      insuranceAddHandler ⟨"c", some 1, some 300, none⟩ noFaults ⟨[], 1⟩ ∧
    insuranceUpdateHandler ⟨"c", some 300, some ⟨none, none, none⟩⟩ noFaults ⟨[], 1⟩ =
      insuranceUpdateHandler ⟨"c", some 300, none⟩ noFaults ⟨[], 1⟩ ∧
    ((insuranceAddHandler ⟨"c", some 1, none, none⟩ noFaults ⟨[], 1⟩).1.status = 400 ∧
     (insuranceAddHandler ⟨"c", some 1, none, none⟩ noFaults ⟨[], 1⟩).2.1 = [] ∧
     (insuranceAddHandler ⟨"c", some 1, none, none⟩ noFaults ⟨[], 1⟩).2.2 = ⟨[], 1⟩) ∧
    ((insuranceUpdateHandler ⟨"c", none, none⟩ noFaults ⟨[], 1⟩).1.status = 400 ∧
     (insuranceUpdateHandler ⟨"c", none, none⟩ noFaults ⟨[], 1⟩).2.1 = [] ∧
     (insuranceUpdateHandler ⟨"c", none, none⟩ noFaults ⟨[], 1⟩).2.2 = ⟨[], 1⟩)) :=
  ⟨by decide, cartTotal_precedence "c" (by decide) 300 ⟨none, none, none⟩ 1 noFaults ⟨[], 1⟩⟩

/-- C2 counterexample: a successful enable reconciliation does not leave at
most one insurance item — the `/add` flow never re-fetches and re-checks
after the remove, so on a cart already holding two insurance items it
removes only the first match, adds the new item, reports success, and
leaves two insurance items in the cart. -/
theorem duplicate_insurance_items_survive :
    (insuranceAddHandler ⟨"c", some 1, some 300, none⟩ noFaults
      ⟨[⟨1, insuranceProductId, 3⟩, ⟨2, insuranceProductId, 3⟩], 3⟩).1.success = 1 ∧
    (insuranceItems (insuranceAddHandler ⟨"c", some 1, some 300, none⟩ noFaults
      ⟨[⟨1, insuranceProductId, 3⟩, ⟨2, insuranceProductId, 3⟩], 3⟩).2.2).length = 2 := by
  decide

/-- C2 amended: an enable reconciliation issues at most one add per call,
and — when the cart held at most one insurance item to begin with — a
fault-free call succeeds and leaves exactly one insurance item, priced at
the latest amount, so two successive enable calls converge to one item at
the latest price; the repair of pre-existing duplicates, however, does not
happen, as no re-fetch-and-re-check follows the remove in the `/add`
flow. -/
theorem reconcile_enable_converges (req : AddRequest) (f : Faults) (st : StoreState) (t : ℚ)
    (hcid : req.cartId ≠ "") (hp : req.protection = some 1) (ht : req.cartTotal = some t) :
    countAdds (insuranceAddHandler req f st).2.1 ≤ 1 ∧
    ((insuranceItems st).length ≤ 1 → f = noFaults →
      (insuranceAddHandler req f st).1.success = 1 ∧
      insuranceItems (insuranceAddHandler req f st).2.2 =
        [⟨st.nextId, insuranceProductId, toFixed2 (calculateInsuranceAmount t)⟩]) := by
  obtain ⟨cid, prot, ctot, cdata⟩ := req
  dsimp only at hp ht hcid
  subst hp; subst ht
  constructor
  · rcases f with ⟨ff, rf, af⟩
    cases ff <;> cases af <;>
      rcases hfind : findInsuranceProduct (renderCart st) with _ | ex <;>
        simp [insuranceAddHandler, requestBaseAmount, hcid, hfind, countAdds]
  · rintro hinv rfl
    rcases hfind : findInsuranceProduct (renderCart st) with _ | ex
    · -- no existing insurance item: the new item is appended to a cart
      -- containing none
      have hnone : st.items.find? (fun it => it.productId = insuranceProductId) = none := by
        have h := hfind
        rw [findInsuranceProduct_renderCart] at h
        exact Option.map_eq_none.mp h
      have hempty : insuranceItems st = [] := by
        unfold insuranceItems
        exact List.filter_eq_nil_iff.mpr (List.find?_eq_none.mp hnone)
      refine ⟨by simp [insuranceAddHandler, requestBaseAmount, hcid, hfind, noFaults], ?_⟩
      have hstate : (insuranceAddHandler ⟨cid, some 1, some t, cdata⟩ noFaults st).2.2 =
          storeAdd st insuranceProductId (toFixed2 (calculateInsuranceAmount t)) := by
        simp [insuranceAddHandler, requestBaseAmount, hcid, hfind, noFaults]
      rw [hstate, insuranceItems_storeAdd, hempty]
      rfl
    · -- the existing insurance item is removed, then the new one appended
      obtain ⟨ex0, hfind0, hex⟩ : ∃ ex0,
          st.items.find? (fun it => it.productId = insuranceProductId) = some ex0 ∧
          storeItemToRaw ex0 = ex := by
        have h := hfind
        rw [findInsuranceProduct_renderCart] at h
        exact Option.map_eq_some'.mp h
      have hpred : ex0.productId = insuranceProductId := by
        have := List.find?_some hfind0
        simpa using this
      have hmem : ex0 ∈ st.items := List.mem_of_find?_eq_some hfind0
      have hsingle : insuranceItems st = [ex0] :=
        eq_singleton_of_length_le_one hinv
          (List.mem_filter.mpr ⟨hmem, by simpa using hpred⟩)
      have hexid : ex.id = ex0.id := by rw [← hex]; simp [storeItemToRaw]
      refine ⟨by simp [insuranceAddHandler, requestBaseAmount, hcid, hfind, noFaults], ?_⟩
      have hstate : (insuranceAddHandler ⟨cid, some 1, some t, cdata⟩ noFaults st).2.2 =
          storeAdd (storeRemove st ex.id) insuranceProductId
            (toFixed2 (calculateInsuranceAmount t)) := by
        simp [insuranceAddHandler, requestBaseAmount, hcid, hfind, noFaults]
      have hrem : insuranceItems (storeRemove st ex0.id) = [] := by
        have h1 : insuranceItems (storeRemove st ex0.id) =
            (insuranceItems st).filter (fun a => a.id ≠ ex0.id) := by
          simp [insuranceItems, storeRemove, List.filter_filter, Bool.and_comm]
        rw [h1, hsingle]
        simp
      have hnext : (storeRemove st ex0.id).nextId = st.nextId := rfl
      rw [hstate, hexid, insuranceItems_storeAdd, hrem, hnext]
      rfl

/-- C2 amended witness: instantiation at a cart holding one insurance item
at price 3. -/
theorem reconcile_enable_converges_witness :
    AddRequest.cartId ⟨"c", some 1, some 300, none⟩ ≠ "" ∧
    AddRequest.protection ⟨"c", some 1, some 300, none⟩ = some 1 ∧
    AddRequest.cartTotal ⟨"c", some 1, some 300, none⟩ = some 300 ∧
    (countAdds (insuranceAddHandler ⟨"c", some 1, some 300, none⟩ noFaults
        ⟨[⟨1, insuranceProductId, 3⟩], 2⟩).2.1 ≤ 1 ∧
    ((insuranceItems ⟨[⟨1, insuranceProductId, 3⟩], 2⟩).length ≤ 1 → noFaults = noFaults →
      (insuranceAddHandler ⟨"c", some 1, some 300, none⟩ noFaults
        ⟨[⟨1, insuranceProductId, 3⟩], 2⟩).1.success = 1 ∧
      insuranceItems (insuranceAddHandler ⟨"c", some 1, some 300, none⟩ noFaults
        ⟨[⟨1, insuranceProductId, 3⟩], 2⟩).2.2 =
          [⟨StoreState.nextId ⟨[⟨1, insuranceProductId, 3⟩], 2⟩, insuranceProductId,
            toFixed2 (calculateInsuranceAmount 300)⟩])) :=
  ⟨by decide, rfl, rfl,
   reconcile_enable_converges ⟨"c", some 1, some 300, none⟩ noFaults
     ⟨[⟨1, insuranceProductId, 3⟩], 2⟩ 300 (by decide) rfl rfl⟩

/-- C3 counterexample: in the `/update` (recalculate) flow a failing remove
is not swallowed — with the store holding an insurance item and the remove
call failing, the handler responds 500 with `success: 0`, and no add call
is issued. -/
theorem remove_failure_surfaces_in_update :
    (insuranceUpdateHandler ⟨"c", some 300, none⟩ ⟨false, true, false⟩
      ⟨[⟨1, insuranceProductId, 3⟩], 2⟩).1.success = 0 ∧
    (insuranceUpdateHandler ⟨"c", some 300, none⟩ ⟨false, true, false⟩
      ⟨[⟨1, insuranceProductId, 3⟩], 2⟩).1.status = 500 ∧
    (insuranceUpdateHandler ⟨"c", some 300, none⟩ ⟨false, true, false⟩
      ⟨[⟨1, insuranceProductId, 3⟩], 2⟩).2.1 = [StoreOp.fetchCart, StoreOp.removeItem 1] := by
  refine ⟨?_, ?_, ?_⟩ <;>
    simp +decide [insuranceUpdateHandler, requestBaseAmount, findInsuranceProduct, renderCart,
      rawCartLineItems, resolvedProductId, jsOrNum, storeItemToRaw, insuranceProductId,
      serverError]

/-- C3 amended: the remove failure is swallowed only in the `/add`
(SetInsurance) flow — there, with the fetch and add succeeding, a failing
remove still leads to exactly one add and a success response — while in the
`/update` flow a failing remove surfaces as a 500 error. -/
theorem remove_failure_swallowed_in_add (req : AddRequest) (st : StoreState) (t : ℚ)
    (hcid : req.cartId ≠ "") (hp : req.protection = some 1) (ht : req.cartTotal = some t) :
    (insuranceAddHandler req ⟨false, true, false⟩ st).1.success = 1 ∧
    (insuranceAddHandler req ⟨false, true, false⟩ st).1.status = 200 ∧
    countAdds (insuranceAddHandler req ⟨false, true, false⟩ st).2.1 = 1 := by
  obtain ⟨cid, prot, ctot, cdata⟩ := req
  dsimp only at hp ht hcid
  subst hp; subst ht
  rcases hfind : findInsuranceProduct (renderCart st) with _ | ex <;>
    simp [insuranceAddHandler, requestBaseAmount, hcid, hfind, countAdds]

/-- C3 amended witness: instantiation at a cart holding one insurance item
whose removal fails. -/
theorem remove_failure_swallowed_in_add_witness :
    AddRequest.cartId ⟨"c", some 1, some 300, none⟩ ≠ "" ∧
    AddRequest.protection ⟨"c", some 1, some 300, none⟩ = some 1 ∧
    AddRequest.cartTotal ⟨"c", some 1, some 300, none⟩ = some 300 ∧
    ((insuranceAddHandler ⟨"c", some 1, some 300, none⟩ ⟨false, true, false⟩
      ⟨[⟨1, insuranceProductId, 3⟩], 2⟩).1.success = 1 ∧
    (insuranceAddHandler ⟨"c", some 1, some 300, none⟩ ⟨false, true, false⟩
      ⟨[⟨1, insuranceProductId, 3⟩], 2⟩).1.status = 200 ∧
    countAdds (insuranceAddHandler ⟨"c", some 1, some 300, none⟩ ⟨false, true, false⟩
      ⟨[⟨1, insuranceProductId, 3⟩], 2⟩).2.1 = 1) :=
  ⟨by decide, rfl, rfl,
   remove_failure_swallowed_in_add ⟨"c", some 1, some 300, none⟩
     ⟨[⟨1, insuranceProductId, 3⟩], 2⟩ 300 (by decide) rfl rfl⟩

/-- C5 counterexample: a successful enable call that both removed an
existing insurance item and added the new one reports action `add`, not
`update` — the `/add` handler picks the action from the protection flag
alone. -/
theorem replace_reports_add_not_update :
    (insuranceAddHandler ⟨"c", some 1, some 300, none⟩ noFaults
      ⟨[⟨1, insuranceProductId, 3⟩], 2⟩).1.success = 1 ∧
    StoreOp.removeItem 1 ∈ (insuranceAddHandler ⟨"c", some 1, some 300, none⟩ noFaults
      ⟨[⟨1, insuranceProductId, 3⟩], 2⟩).2.1 ∧
    countAdds (insuranceAddHandler ⟨"c", some 1, some 300, none⟩ noFaults
      ⟨[⟨1, insuranceProductId, 3⟩], 2⟩).2.1 = 1 ∧
    (insuranceAddHandler ⟨"c", some 1, some 300, none⟩ noFaults
      ⟨[⟨1, insuranceProductId, 3⟩], 2⟩).1.action = some "add" ∧
    (insuranceAddHandler ⟨"c", some 1, some 300, none⟩ noFaults
      ⟨[⟨1, insuranceProductId, 3⟩], 2⟩).1.action ≠ some "update" := by
  refine ⟨?_, ?_, ?_, ?_, ?_⟩ <;>
    simp +decide [insuranceAddHandler, requestBaseAmount, noFaults, findInsuranceProduct,
      renderCart, rawCartLineItems, resolvedProductId, jsOrNum, storeItemToRaw,
      insuranceProductId, countAdds]

/-- C5 amended: a successful `/add` response reports action `add` whenever
protection is enabled — also when an existing item was replaced — and
`remove` when it is disabled, never `update`; the separate `/update`
endpoint reports `update` on every success; every success response carries
the success flag and an applied amount. -/
theorem action_reporting (req : AddRequest) (f : Faults) (st : StoreState) (pv : Int)
    (hp : req.protection = some pv) :
    ((insuranceAddHandler req f st).1.success = 1 →
      (insuranceAddHandler req f st).1.action = some (if pv = 1 then "add" else "remove") ∧
      (insuranceAddHandler req f st).1.insuranceAmount.isSome = true) ∧
    (∀ (ureq : UpdateRequest) (g : Faults) (st2 : StoreState),
      (insuranceUpdateHandler ureq g st2).1.success = 1 →
      (insuranceUpdateHandler ureq g st2).1.action = some "update" ∧
      (insuranceUpdateHandler ureq g st2).1.insuranceAmount.isSome = true) := by
  constructor
  · obtain ⟨cid, prot, ctot, cdata⟩ := req
    dsimp only at hp
    subst hp
    by_cases hcid : cid = ""
    · simp [insuranceAddHandler, hcid, badRequest]
    · rcases hbase : requestBaseAmount ctot cdata with _ | b
      · simp [insuranceAddHandler, hcid, hbase, badRequest]
      · rcases f with ⟨ff, rf, af⟩
        by_cases hpv : pv = 1
        · subst hpv
          cases ff <;> cases af <;>
            rcases hfind : findInsuranceProduct (renderCart st) with _ | ex <;>
              simp [insuranceAddHandler, hcid, hbase, hfind, serverError, badRequest]
        · by_cases hpv0 : pv = 0
          · subst hpv0
            cases ff <;>
              rcases hfind : findInsuranceProduct (renderCart st) with _ | ex <;>
                simp [insuranceAddHandler, hcid, hbase, hfind, badRequest]
          · simp [insuranceAddHandler, hcid, hbase, hpv, hpv0, badRequest]
  · intro ureq g st2
    obtain ⟨cid, ctot, cdata⟩ := ureq
    by_cases hcid : cid = ""
    · simp [insuranceUpdateHandler, hcid, badRequest]
    · rcases hbase : requestBaseAmount ctot cdata with _ | b
      · simp [insuranceUpdateHandler, hcid, hbase, badRequest]
      · rcases g with ⟨ff, rf, af⟩
        cases ff <;> cases rf <;> cases af <;>
          rcases hfind : findInsuranceProduct (renderCart st2) with _ | ex <;>
            simp [insuranceUpdateHandler, hcid, hbase, hfind, serverError, badRequest]

/-- C5 amended witness: instantiation at an enable request replacing an
existing insurance item. -/
theorem action_reporting_witness :
    AddRequest.protection ⟨"c", some 1, some 300, none⟩ = some 1 ∧
    (((insuranceAddHandler ⟨"c", some 1, some 300, none⟩ noFaults
        ⟨[⟨1, insuranceProductId, 3⟩], 2⟩).1.success = 1 →
      (insuranceAddHandler ⟨"c", some 1, some 300, none⟩ noFaults
        ⟨[⟨1, insuranceProductId, 3⟩], 2⟩).1.action =
          some (if (1 : Int) = 1 then "add" else "remove") ∧
      (insuranceAddHandler ⟨"c", some 1, some 300, none⟩ noFaults
        ⟨[⟨1, insuranceProductId, 3⟩], 2⟩).1.insuranceAmount.isSome = true) ∧
    (∀ (ureq : UpdateRequest) (g : Faults) (st2 : StoreState),
      (insuranceUpdateHandler ureq g st2).1.success = 1 →
      (insuranceUpdateHandler ureq g st2).1.action = some "update" ∧
      (insuranceUpdateHandler ureq g st2).1.insuranceAmount.isSome = true)) :=
  ⟨rfl, action_reporting ⟨"c", some 1, some 300, none⟩ noFaults
    ⟨[⟨1, insuranceProductId, 3⟩], 2⟩ 1 rfl⟩

/-- C6: the applied amount is exactly 0 when protection is disabled and
otherwise `calculateInsuranceAmount` of the caller-supplied subtotal
rounded half-up to two decimals; every add issued to the external store
carries exactly that price, and the response carries either no amount (on
an error) or exactly that amount. -/
theorem applied_amount_exact (req : AddRequest) (f : Faults) (st : StoreState) (pv : Int) (t : ℚ)
    (hp : req.protection = some pv) (ht : req.cartTotal = some t) :
    (∀ pid n p, StoreOp.addItem pid n p ∈ (insuranceAddHandler req f st).2.1 →
      p = if pv = 1 then toFixed2 (calculateInsuranceAmount t) else 0) ∧
    ((insuranceAddHandler req f st).1.insuranceAmount = none ∨
      (insuranceAddHandler req f st).1.insuranceAmount =
        some (if pv = 1 then toFixed2 (calculateInsuranceAmount t) else 0)) ∧
    toFixed2 (calculateInsuranceAmount t) =
      ((⌊calculateInsuranceAmount t * 100 + 1 / 2⌋ : ℤ) : ℚ) / 100 ∧
    toFixed2 0 = 0 := by
  obtain ⟨cid, prot, ctot, cdata⟩ := req
  dsimp only at hp ht
  subst hp; subst ht
  refine ⟨?_, ?_, by simp [toFixed2, round_eq], toFixed2_zero⟩
  · by_cases hcid : cid = ""
    · simp [insuranceAddHandler, hcid, badRequest]
    · rcases f with ⟨ff, rf, af⟩
      by_cases hpv : pv = 1
      · subst hpv
        cases ff <;> cases af <;>
          rcases hfind : findInsuranceProduct (renderCart st) with _ | ex <;>
            simp [insuranceAddHandler, requestBaseAmount, hcid, hfind, serverError, badRequest]
      · by_cases hpv0 : pv = 0
        · subst hpv0
          cases ff <;>
            rcases hfind : findInsuranceProduct (renderCart st) with _ | ex <;>
              simp [insuranceAddHandler, requestBaseAmount, hcid, hfind, badRequest]
        · simp [insuranceAddHandler, requestBaseAmount, hcid, hpv, hpv0, badRequest]
  · by_cases hcid : cid = ""
    · simp [insuranceAddHandler, hcid, badRequest]
    · rcases f with ⟨ff, rf, af⟩
      by_cases hpv : pv = 1
      · subst hpv
        cases ff <;> cases af <;>
          rcases hfind : findInsuranceProduct (renderCart st) with _ | ex <;>
            simp [insuranceAddHandler, requestBaseAmount, hcid, hfind, serverError, badRequest]
      · by_cases hpv0 : pv = 0
        · subst hpv0
          cases ff <;>
            rcases hfind : findInsuranceProduct (renderCart st) with _ | ex <;>
              simp [insuranceAddHandler, requestBaseAmount, hcid, hfind, badRequest, toFixed2_zero]
        · simp [insuranceAddHandler, requestBaseAmount, hcid, hpv, hpv0, badRequest]

/-- C6 witness: instantiation at an enabled request with subtotal 300. -/
theorem applied_amount_exact_witness :
    AddRequest.protection ⟨"c", some 1, some 300, none⟩ = some 1 ∧
    AddRequest.cartTotal ⟨"c", some 1, some 300, none⟩ = some 300 ∧
    ((∀ pid n p, StoreOp.addItem pid n p ∈
        (insuranceAddHandler ⟨"c", some 1, some 300, none⟩ noFaults ⟨[], 1⟩).2.1 →
      p = if (1 : Int) = 1 then toFixed2 (calculateInsuranceAmount 300) else 0) ∧
    ((insuranceAddHandler ⟨"c", some 1, some 300, none⟩ noFaults ⟨[], 1⟩).1.insuranceAmount =
        none ∨
      (insuranceAddHandler ⟨"c", some 1, some 300, none⟩ noFaults ⟨[], 1⟩).1.insuranceAmount =
        some (if (1 : Int) = 1 then toFixed2 (calculateInsuranceAmount 300) else 0)) ∧
    toFixed2 (calculateInsuranceAmount 300) =
      ((⌊calculateInsuranceAmount 300 * 100 + 1 / 2⌋ : ℤ) : ℚ) / 100 ∧
    toFixed2 0 = 0) :=
  ⟨rfl, rfl, applied_amount_exact ⟨"c", some 1, some 300, none⟩ noFaults ⟨[], 1⟩ 1 300 rfl rfl⟩

end NewShipping
